import Mathlib

/-!
Shallow embedding of the core of the `baybe` recommendation library:
acquisition functions (`acquisition/acqfs.py`), the discrete selection
helper and Bayesian recommender (`strategies/recommender.py`), the naive
mean-prediction surrogate (`surrogates/naive.py`), and the column
transformer (`utils/scaling.py`). Numeric values are modelled as `ℚ`,
dataframes as lists of rows indexed by position, in-place mutation as
explicit state passing, and raised exceptions as `Except` errors.
-/

deriving instance DecidableEq for Except

namespace Baybe

/-! ### `utils/scaling.py`: `ColumnTransformer`

The numeric behaviour of the botorch transforms is irrelevant to the
construction-time validation, so transform values are an abstract tag type;
a value of this type is by construction "a recognized transform type".
-/

/-- Stand-in for a recognized botorch `InputTransform` object. -/
inductive InputTransform where
  | normalize
  | standardize
  deriving DecidableEq

/-- Python `set(x).isdisjoint(y)` for two column-index tuples. -/
def tuplesDisjoint (x y : List Nat) : Bool :=
  x.all fun a => !(y.contains a)

/-- The loop of `ColumnTransformer._validate_mapping_is_disjoint`: iterate
`itertools.combinations(value.keys(), 2)` in mapping order and return the
first pair `(x, y)` of keys (`x` earlier than `y`) that share a column
index, if any; the source raises `ValueError` at that first pair. -/
def findNonDisjointPair : List (List Nat) → Option (List Nat × List Nat)
  | [] => none
  | x :: rest =>
    match rest.find? (fun y => !tuplesDisjoint x y) with
    | some y => some (x, y)
    | none => findNonDisjointPair rest

/-- Validation failure raised while constructing a `ColumnTransformer`:
the `ValueError` message names both offending column tuples. -/
inductive ScalingValidationError where
  | notDisjoint (x y : List Nat)
  deriving DecidableEq

/-- `ColumnTransformer`: a mapping (in Python an ordered `dict`, here an
association list) from column-index tuples to transform objects. -/
structure ColumnTransformer where
  mapping : List (List Nat × InputTransform)
  deriving DecidableEq

/-- Construction of a `ColumnTransformer`: the attrs validators run on the
`mapping` field. `_validate_mapping_types_lazily` always passes here
because values are well-typed `InputTransform` tags by construction;
`_validate_mapping_is_disjoint` raises `ValueError` naming the first
non-disjoint pair of key tuples. -/
def ColumnTransformer.make (mapping : List (List Nat × InputTransform)) :
    Except ScalingValidationError ColumnTransformer :=
  match findNonDisjointPair (mapping.map Prod.fst) with
  | some (x, y) => .error (.notDisjoint x y)
  | none => .ok ⟨mapping⟩

/-! ### `utils/sampling_algorithms.py` collaborator -/

/-- Modelled from the spec: `SamplingMethod` (from
`baybe.utils.sampling_algorithms`, not part of the excerpt) selects
either uniform random sampling or a structured/greedy diversity method
for the discrete part. Only its identity matters here. -/
inductive SamplingMethod where
  | Random
  | Greedy
  deriving DecidableEq

/-! ### `acquisition/acqfs.py` -/

/-- Validation failure raised by an attrs field validator of an
acquisition function (`gt`, `le`, `ge` range checks); the payload names
the offending field. -/
inductive AcqValidationError where
  | notGreaterThan (fieldName : String)
  | notLessOrEqual (fieldName : String)
  | notGreaterOrEqual (fieldName : String)
  deriving DecidableEq

/-- `UpperConfidenceBound`: analytical upper confidence bound with
trade-off parameter `beta` (source default `0.2`). -/
structure UpperConfidenceBound where
  beta : ℚ
  deriving DecidableEq

/-- Construction of `UpperConfidenceBound`: the `ge(0.0)` validator on
`beta`. -/
def UpperConfidenceBound.make (beta : ℚ) :
    Except AcqValidationError UpperConfidenceBound :=
  if 0 ≤ beta then .ok ⟨beta⟩ else .error (.notGreaterOrEqual "beta")

/-- `qUpperConfidenceBound`: Monte Carlo based upper confidence bound with
trade-off parameter `beta` (source default `0.2`). -/
structure qUpperConfidenceBound where
  beta : ℚ
  deriving DecidableEq

/-- Construction of `qUpperConfidenceBound`: the `ge(0.0)` validator on
`beta`. -/
def qUpperConfidenceBound.make (beta : ℚ) :
    Except AcqValidationError qUpperConfidenceBound :=
  if 0 ≤ beta then .ok ⟨beta⟩ else .error (.notGreaterOrEqual "beta")

/-- `qNegIntegratedPosteriorVariance`: Monte Carlo based negative
integrated posterior variance. `sampling_n_points` is stored as `Option
Nat` because the validators only admit positive ints (source defaults:
`sampling_fraction = 1.0`, `sampling_n_points = None`,
`sampling_method = Random`). -/
structure qNegIntegratedPosteriorVariance where
  sampling_fraction : ℚ
  sampling_n_points : Option Nat
  sampling_method : SamplingMethod
  deriving DecidableEq

/-- Construction of `qNegIntegratedPosteriorVariance`: attrs validators in
field order — `sampling_fraction` has `[gt(0.0), le(1.0)]`,
`sampling_n_points` has `optional([gt(0), instance_of(int)])`. The raw
argument for `sampling_n_points` is an `Int` as in Python. -/
def qNegIntegratedPosteriorVariance.make (sampling_fraction : ℚ)
    (sampling_n_points : Option Int) (sampling_method : SamplingMethod) :
    Except AcqValidationError qNegIntegratedPosteriorVariance :=
  if 0 < sampling_fraction then
    if sampling_fraction ≤ 1 then
      match sampling_n_points with
      | none => .ok ⟨sampling_fraction, none, sampling_method⟩
      | some n =>
        if 0 < n then .ok ⟨sampling_fraction, some n.toNat, sampling_method⟩
        else .error (.notGreaterThan "sampling_n_points")
    else .error (.notLessOrEqual "sampling_fraction")
  else .error (.notGreaterThan "sampling_fraction")

namespace Acq

/-- The `SearchSpace` consumed by `get_integration_points`: an optional
discrete part carrying its computational representation `comp_rep` (a
numeric table, rows of rationals) and an optional continuous part (whose
only observable behaviour here, `samples_random`, is passed to
`get_integration_points` as an explicit collaborator function). -/
structure SearchSpace where
  discrete : Option (List (List ℚ))
  continuous : Option Unit
  deriving DecidableEq

end Acq

/-- Failure of `get_integration_points`: either the `ValueError` naming
the offending class when `sampling_n_points` is required but missing, or
an error raised by the pandas layer (index-length mismatch on alignment,
concatenation of no objects). -/
inductive IntegrationError where
  | missingSamplingNPoints (className : String)
  | indexLengthMismatch
  | noObjectsToConcatenate
  deriving DecidableEq

/-- Python truthiness of an optional int: `None` and `0` are falsy. -/
def pyTruthy : Option Nat → Bool
  | none => false
  | some n => n != 0

/-- Python `a or b` on optional ints: returns `a` when truthy, else `b`. -/
def pyOr (a b : Option Nat) : Option Nat :=
  if pyTruthy a then a else b

/-- `qNegIntegratedPosteriorVariance.get_integration_points`, with the
external sampling collaborators passed explicitly:
`sample_numerical_df df n method` (from `baybe.utils.sampling_algorithms`)
samples `n` rows from the discrete table and
`samples_random n` (the continuous subspace method) samples `n` random
continuous rows. The source computes
`n_candidates = self.sampling_n_points or math.ceil(...)` and later
`n_candidates = n_candidates or self.sampling_n_points` with Python
truthiness (`pyOr`); the pandas index alignment
`sampled_conti.index = sampled_parts[0].index` requires equal lengths and
the final `pd.concat(parts, axis=1)` pairs rows side by side. -/
def qNegIntegratedPosteriorVariance.get_integration_points
    (a : qNegIntegratedPosteriorVariance) (searchspace : Acq.SearchSpace)
    (sample_numerical_df : List (List ℚ) → Nat → SamplingMethod → List (List ℚ))
    (samples_random : Nat → List (List ℚ)) :
    Except IntegrationError (List (List ℚ)) :=
  let discState : Option (List (List ℚ)) × Option Nat :=
    match searchspace.discrete with
    | some candidates_discrete =>
      let n_candidates := pyOr a.sampling_n_points
        (some (Nat.ceil (a.sampling_fraction * (candidates_discrete.length : ℚ))))
      (some (sample_numerical_df candidates_discrete (n_candidates.getD 0)
               a.sampling_method),
       n_candidates)
    | none => (none, none)
  match searchspace.continuous with
  | some _ =>
    match pyOr discState.2 a.sampling_n_points with
    | none => .error (.missingSamplingNPoints "qNegIntegratedPosteriorVariance")
    | some n_candidates =>
      let sampled_conti := samples_random n_candidates
      match discState.1 with
      | some sampled_disc =>
        if sampled_disc.length = sampled_conti.length then
          .ok (List.zipWith (fun r s => r ++ s) sampled_disc sampled_conti)
        else .error .indexLengthMismatch
      | none => .ok sampled_conti
  | none =>
    match discState.1 with
    | some sampled_disc => .ok sampled_disc
    | none => .error .noObjectsToConcatenate

/-! ### `surrogates/naive.py`: `MeanPredictionSurrogate` -/

/-- `MeanPredictionSurrogate`: trivial surrogate whose `_model` is the
stored scalar mean of the training targets (initially `None`). -/
structure MeanPredictionSurrogate where
  _model : Option ℚ
  deriving DecidableEq

/-- Class variable `joint_posterior = False`. -/
def MeanPredictionSurrogate.joint_posterior : Bool := false

/-- Class variable `supports_transfer_learning = False`. -/
def MeanPredictionSurrogate.supports_transfer_learning : Bool := false

/-- `torch.Tensor.mean().item()` on a one-dimensional tensor of targets. -/
def tensorMean (ys : List ℚ) : ℚ := ys.sum / (ys.length : ℚ)

/-- `MeanPredictionSurrogate._fit`: stores the scalar mean of `train_y`. -/
def MeanPredictionSurrogate._fit (s : MeanPredictionSurrogate)
    (train_x : List (List ℚ)) (train_y : List ℚ) : MeanPredictionSurrogate :=
  { s with _model := some (tensorMean train_y) }

/-- `MeanPredictionSurrogate._estimate_moments`: for a fitted model,
returns `self._model * torch.ones(len(candidates))` as the mean and
`torch.ones(len(candidates))` as the variance; using the model before a
fit (`_model is None`) is a failure, modelled as `none`. -/
def MeanPredictionSurrogate._estimate_moments (s : MeanPredictionSurrogate)
    (candidates_comp_scaled : List (List ℚ)) : Option (List ℚ × List ℚ) :=
  s._model.map fun m =>
    (List.replicate candidates_comp_scaled.length m,
     List.replicate candidates_comp_scaled.length 1)

/-! ### `strategies/recommender.py` -/

namespace Strategies

/-- One row of the discrete metadata table. -/
structure MetadataRow where
  was_measured : Bool
  was_recommended : Bool
  dont_recommend : Bool
  deriving DecidableEq

/-- The discrete subspace: computational representation, experimental
representation (row content abstracted to a `Nat` code) and metadata,
three tables sharing the positional row labels `0, 1, ...`. -/
structure SubspaceDiscrete where
  comp_rep : List (List ℚ)
  exp_rep : List Nat
  metadata : List MetadataRow
  deriving DecidableEq

/-- The continuous subspace as seen by the selection helper: only its
`empty` flag is consulted. -/
structure SubspaceContinuous where
  empty : Bool
  deriving DecidableEq

/-- The `SearchSpace` consumed by `select_candidates_and_recommend`. -/
structure SearchSpace where
  discrete : SubspaceDiscrete
  continuous : SubspaceContinuous
  deriving DecidableEq

/-- Modelled from the spec: `SubspaceDiscrete.get_candidates` is an
external collaborator (`baybe.searchspace`, not in the excerpt). Per the
spec it returns the discrete rows filtered by the current
repetition/measurement policy: a row is a candidate iff its
`dont_recommend` flag is unset, it is not excluded as already recommended
(unless `allow_repeated_recommendations`), and not excluded as already
measured (unless `allow_recommending_already_measured`). The returned
filtered computational representation is modelled as the list of
(row label, comp-rep row) pairs. -/
def SubspaceDiscrete.get_candidates (d : SubspaceDiscrete)
    (allow_repeated_recommendations : Bool)
    (allow_recommending_already_measured : Bool) : List (Nat × List ℚ) :=
  (List.range d.metadata.length).filterMap fun i =>
    match d.metadata.get? i, d.comp_rep.get? i with
    | some m, some row =>
      if !m.dont_recommend
          && (allow_repeated_recommendations || !m.was_recommended)
          && (allow_recommending_already_measured || !m.was_measured) then
        some (i, row)
      else none
    | _, _ => none

/-- The error raised when fewer candidates are left than requested
(`NotEnoughPointsLeftError`). -/
inductive RecommendError where
  | notEnoughPointsLeft
  deriving DecidableEq

/-- Helper for the in-place update
`metadata.loc[idxs, "was_recommended"] = True`: walks the metadata table
carrying the positional label of the current row. -/
def markRecommendedFrom (idxs : List Nat) : Nat → List MetadataRow → List MetadataRow
  | _, [] => []
  | i, m :: rest =>
    (if i ∈ idxs then { m with was_recommended := true } else m) ::
      markRecommendedFrom idxs (i + 1) rest

/-- `metadata.loc[idxs, "was_recommended"] = True` as a pure update. -/
def markRecommended (metadata : List MetadataRow) (idxs : List Nat) :
    List MetadataRow :=
  markRecommendedFrom idxs 0 metadata

/-- The `searchspace.discrete.get_candidates(...)` call at the top of
`select_candidates_and_recommend`: the caller flags are each OR-ed with
`not searchspace.continuous.empty`. -/
def filteredCandidates (searchspace : SearchSpace)
    (allow_repeated_recommendations : Bool)
    (allow_recommending_already_measured : Bool) : List (Nat × List ℚ) :=
  searchspace.discrete.get_candidates
    (allow_repeated_recommendations || !searchspace.continuous.empty)
    (allow_recommending_already_measured || !searchspace.continuous.empty)

/-- `select_candidates_and_recommend`: fetch filtered candidates, fail
with `NotEnoughPointsLeftError` if fewer than `batch_quantity` are left,
otherwise obtain selected row labels from the per-variant `recommend`
callback, look up the experimental-representation rows
(`exp_rep.loc[idxs]`, returned here as label/content pairs), mark the
metadata of the selected rows with `was_recommended = True`, and return the rows.
The in-place metadata mutation is modelled by also returning the
resulting search space; the error branch returns the input unchanged. -/
def select_candidates_and_recommend (searchspace : SearchSpace)
    (recommend : SearchSpace → List (Nat × List ℚ) → Nat → List Nat)
    (batch_quantity : Nat)
    (allow_repeated_recommendations : Bool)
    (allow_recommending_already_measured : Bool) :
    Except RecommendError (List (Nat × Nat)) × SearchSpace :=
  let candidates_comp := filteredCandidates searchspace
    allow_repeated_recommendations allow_recommending_already_measured
  if candidates_comp.length < batch_quantity then
    (.error .notEnoughPointsLeft, searchspace)
  else
    let idxs := recommend searchspace candidates_comp batch_quantity
    let rec_rows := idxs.map fun i => (i, searchspace.discrete.exp_rep.getD i 0)
    let new_metadata := markRecommended searchspace.discrete.metadata idxs
    (.ok rec_rows,
     { searchspace with
        discrete := { searchspace.discrete with metadata := new_metadata } })

end Strategies

namespace Botorch

/-- A constructed botorch acquisition-function object, as produced by the
entries of the name-to-class mapping in
`BayesianRecommender.get_acquisition_function_cls`; the UCB variants
carry their exploration weight `beta`. -/
inductive AcquisitionFunction where
  | PosteriorMean
  | ProbabilityOfImprovement
  | ExpectedImprovement
  | UpperConfidenceBound (beta : ℚ)
  | qExpectedImprovement
  | qProbabilityOfImprovement
  | qUpperConfidenceBound (beta : ℚ)
  deriving DecidableEq

end Botorch

/-- The name-to-class mapping of
`BayesianRecommender.get_acquisition_function_cls`, applied to build the
acquisition function. The `UCB` and `qUCB` entries are
`partial(cls, beta=1.0)`, so instantiation uses `beta = 1.0` unless a
`beta` keyword is supplied at the call; the other entries accept no
`beta` keyword (a supplied one is a `TypeError`, modelled as `none`), and
an unknown key is a `KeyError` (`none`). -/
def BayesianRecommender.get_acquisition_function_cls
    (acquisition_function_cls : String) (betaOverride : Option ℚ) :
    Option Botorch.AcquisitionFunction :=
  match acquisition_function_cls with
  | "PM" => if betaOverride.isNone then some .PosteriorMean else none
  | "PI" => if betaOverride.isNone then some .ProbabilityOfImprovement else none
  | "EI" => if betaOverride.isNone then some .ExpectedImprovement else none
  | "UCB" => some (.UpperConfidenceBound (betaOverride.getD 1))
  | "qEI" => if betaOverride.isNone then some .qExpectedImprovement else none
  | "qPI" => if betaOverride.isNone then some .qProbabilityOfImprovement else none
  | "qUCB" => some (.qUpperConfidenceBound (betaOverride.getD 1))
  | _ => none

/-- Boolean success test for an `Except` result. -/
def exceptIsOk : Except ε α → Bool
  | .ok _ => true
  | .error _ => false

/-! ## Theorems -/

/-! ### ColumnTransformer validation (C8) -/

theorem findNonDisjointPair_eq_none (l : List (List Nat))
    (h : l.Pairwise fun x y => tuplesDisjoint x y = true) :
    findNonDisjointPair l = none := by
  induction l with
  | nil => rfl
  | cons x rest ih =>
    rw [List.pairwise_cons] at h
    unfold findNonDisjointPair
    have hfind : rest.find? (fun y => !tuplesDisjoint x y) = none := by
      rw [List.find?_eq_none]
      intro y hy
      simp [h.1 y hy]
    rw [hfind]
    exact ih h.2

theorem findNonDisjointPair_eq_some (l : List (List Nat))
    (h : ¬ l.Pairwise fun x y => tuplesDisjoint x y = true) :
    ∃ x y, findNonDisjointPair l = some (x, y) := by
  induction l with
  | nil => exact absurd List.Pairwise.nil h
  | cons x rest ih =>
    rw [List.pairwise_cons] at h
    push_neg at h
    by_cases hall : ∀ b ∈ rest, tuplesDisjoint x b = true
    · obtain ⟨x', y', hxy⟩ := ih (h hall)
      refine ⟨x', y', ?_⟩
      unfold findNonDisjointPair
      have hfind : rest.find? (fun y => !tuplesDisjoint x y) = none := by
        rw [List.find?_eq_none]
        intro y hy
        simp [hall y hy]
      rw [hfind]
      exact hxy
    · push_neg at hall
      obtain ⟨b, hb, hbd⟩ := hall
      have hsome : (rest.find? (fun y => !tuplesDisjoint x y)).isSome := by
        rw [List.find?_isSome]
        exact ⟨b, hb, by simp [hbd]⟩
      obtain ⟨y, hy⟩ := Option.isSome_iff_exists.mp hsome
      refine ⟨x, y, ?_⟩
      unfold findNonDisjointPair
      rw [hy]

theorem findNonDisjointPair_spec (l : List (List Nat)) (x y : List Nat)
    (h : findNonDisjointPair l = some (x, y)) :
    x ∈ l ∧ y ∈ l ∧ tuplesDisjoint x y = false := by
  induction l with
  | nil => exact absurd h (by simp [findNonDisjointPair])
  | cons a rest ih =>
    unfold findNonDisjointPair at h
    cases hf : rest.find? (fun y => !tuplesDisjoint a y) with
    | some b =>
      rw [hf] at h
      have hb : b ∈ rest := List.mem_of_find?_eq_some hf
      have hbd := List.find?_some hf
      have hxy : a = x ∧ b = y := by
        have := h
        simp only [Option.some.injEq, Prod.mk.injEq] at this
        exact this
      obtain ⟨rfl, rfl⟩ := hxy
      exact ⟨List.mem_cons_self a rest, List.mem_cons_of_mem a hb,
        by simpa using hbd⟩
    | none =>
      rw [hf] at h
      obtain ⟨h1, h2, h3⟩ := ih h
      exact ⟨List.mem_cons_of_mem a h1, List.mem_cons_of_mem a h2, h3⟩

/-- C8: for every mapping whose column-index tuples are pairwise disjoint
(values being recognized transform objects by construction),
`ColumnTransformer` construction succeeds; for every mapping containing
two key tuples that share a column index, construction fails with a
validation error naming two offending (non-disjoint) key tuples. -/
theorem C8_columnTransformer_validation
    (mapping : List (List Nat × InputTransform)) :
    ((mapping.map Prod.fst).Pairwise (fun x y => tuplesDisjoint x y = true) →
      ColumnTransformer.make mapping = .ok ⟨mapping⟩)
    ∧ (¬ (mapping.map Prod.fst).Pairwise (fun x y => tuplesDisjoint x y = true) →
      ∃ x y, ColumnTransformer.make mapping = .error (.notDisjoint x y)
        ∧ x ∈ mapping.map Prod.fst ∧ y ∈ mapping.map Prod.fst
        ∧ tuplesDisjoint x y = false) := by
  constructor
  · intro h
    unfold ColumnTransformer.make
    rw [findNonDisjointPair_eq_none _ h]
  · intro h
    obtain ⟨x, y, hxy⟩ := findNonDisjointPair_eq_some _ h
    obtain ⟨h1, h2, h3⟩ := findNonDisjointPair_spec _ _ _ hxy
    exact ⟨x, y, by unfold ColumnTransformer.make; rw [hxy], h1, h2, h3⟩

/-- Witness for C8 at two concrete mappings: a disjoint one that
constructs, and an overlapping one that fails naming two offending
tuples. -/
theorem C8_columnTransformer_validation_witness :
    (ColumnTransformer.make [([0, 1], .normalize), ([2, 3], .standardize)]
      = .ok ⟨[([0, 1], .normalize), ([2, 3], .standardize)]⟩)
    ∧ ∃ x y,
      ColumnTransformer.make [([0, 1], .normalize), ([1, 2], .standardize)]
        = .error (.notDisjoint x y)
      ∧ x ∈ [([0, 1], InputTransform.normalize),
             ([1, 2], InputTransform.standardize)].map Prod.fst
      ∧ y ∈ [([0, 1], InputTransform.normalize),
             ([1, 2], InputTransform.standardize)].map Prod.fst
      ∧ tuplesDisjoint x y = false :=
  ⟨(C8_columnTransformer_validation
      [([0, 1], .normalize), ([2, 3], .standardize)]).1 (by decide),
   (C8_columnTransformer_validation
      [([0, 1], .normalize), ([1, 2], .standardize)]).2 (by decide)⟩

/-! ### Hyperparameter validation (C9) -/

/-- C9: acquisition-function hyperparameters are validated at
construction: `beta = -0.1` fails for `UpperConfidenceBound` and
`qUpperConfidenceBound` while `beta = 0` and `beta = 2.5` succeed;
`qNegIntegratedPosteriorVariance` construction fails for
`sampling_fraction` outside `(0, 1]` and for `sampling_n_points ≤ 0`. -/
theorem C9_hyperparameter_validation :
    (UpperConfidenceBound.make (-1/10) = .error (.notGreaterOrEqual "beta"))
    ∧ (UpperConfidenceBound.make 0 = .ok ⟨0⟩)
    ∧ (UpperConfidenceBound.make (5/2) = .ok ⟨5/2⟩)
    ∧ (qUpperConfidenceBound.make (-1/10) = .error (.notGreaterOrEqual "beta"))
    ∧ (qUpperConfidenceBound.make 0 = .ok ⟨0⟩)
    ∧ (qUpperConfidenceBound.make (5/2) = .ok ⟨5/2⟩)
    ∧ (∀ f np sm, ¬ (0 < f ∧ f ≤ 1) →
        exceptIsOk (qNegIntegratedPosteriorVariance.make f np sm) = false)
    ∧ (∀ f n sm, n ≤ 0 →
        exceptIsOk (qNegIntegratedPosteriorVariance.make f (some n) sm) = false) := by
  refine ⟨?_, ?_, ?_, ?_, ?_, ?_, ?_, ?_⟩
  · unfold UpperConfidenceBound.make; rw [if_neg (by norm_num)]
  · unfold UpperConfidenceBound.make; rw [if_pos (by norm_num)]
  · unfold UpperConfidenceBound.make; rw [if_pos (by norm_num)]
  · unfold qUpperConfidenceBound.make; rw [if_neg (by norm_num)]
  · unfold qUpperConfidenceBound.make; rw [if_pos (by norm_num)]
  · unfold qUpperConfidenceBound.make; rw [if_pos (by norm_num)]
  · intro f np sm h
    unfold qNegIntegratedPosteriorVariance.make
    by_cases h1 : 0 < f
    · have h2 : ¬ f ≤ 1 := fun h2 => h ⟨h1, h2⟩
      rw [if_pos h1, if_neg h2]
      rfl
    · rw [if_neg h1]
      rfl
  · intro f n sm h
    unfold qNegIntegratedPosteriorVariance.make
    by_cases h1 : 0 < f
    · by_cases h2 : f ≤ 1
      · rw [if_pos h1, if_pos h2]
        dsimp only
        rw [if_neg (by omega : ¬ (0:Int) < n)]
        rfl
      · rw [if_pos h1, if_neg h2]
        rfl
    · rw [if_neg h1]
      rfl

/-- Witness for C9 at concrete invalid hyperparameters of
`qNegIntegratedPosteriorVariance`. -/
theorem C9_hyperparameter_validation_witness :
    (exceptIsOk (qNegIntegratedPosteriorVariance.make (3/2) none .Random) = false)
    ∧ (exceptIsOk (qNegIntegratedPosteriorVariance.make (1/2) (some (-2)) .Random)
        = false) :=
  ⟨C9_hyperparameter_validation.2.2.2.2.2.2.1 (3/2) none .Random
      (fun hc => absurd hc.2 (by norm_num)),
   C9_hyperparameter_validation.2.2.2.2.2.2.2 (1/2) (-2) .Random (by norm_num)⟩

/-! ### UCB default exploration weight in the recommender mapping (C4) -/

/-- C4: built through the name-to-class mapping of
`BayesianRecommender.get_acquisition_function_cls`, the `UCB` and `qUCB`
entries use an exploration weight `beta = 1.0` unless a `beta` keyword
override is supplied, in which case the override is used. -/
theorem C4_ucb_default_beta :
    (BayesianRecommender.get_acquisition_function_cls "UCB" none
      = some (.UpperConfidenceBound 1))
    ∧ (BayesianRecommender.get_acquisition_function_cls "qUCB" none
      = some (.qUpperConfidenceBound 1))
    ∧ (∀ b, BayesianRecommender.get_acquisition_function_cls "UCB" (some b)
      = some (.UpperConfidenceBound b))
    ∧ (∀ b, BayesianRecommender.get_acquisition_function_cls "qUCB" (some b)
      = some (.qUpperConfidenceBound b)) :=
  ⟨rfl, rfl, fun _ => rfl, fun _ => rfl⟩

/-! ### MeanPredictionSurrogate (C7) -/

/-- C7: after `MeanPredictionSurrogate` is fit on training targets, the
stored model state is the scalar mean of the targets, and moment
estimation returns that constant as the mean for every candidate and
unit variance for every candidate; the mean of the targets `[1, 2, 3]`
is `2`. -/
theorem C7_mean_prediction_surrogate (s : MeanPredictionSurrogate)
    (train_x : List (List ℚ)) (train_y : List ℚ) (hy : train_y ≠ [])
    (candidates : List (List ℚ)) :
    ((s._fit train_x train_y)._model = some (tensorMean train_y))
    ∧ ((s._fit train_x train_y)._estimate_moments candidates
        = some (List.replicate candidates.length (tensorMean train_y),
                List.replicate candidates.length 1))
    ∧ tensorMean [1, 2, 3] = 2 := by
  refine ⟨rfl, rfl, ?_⟩
  norm_num [tensorMean, List.sum_cons, List.sum_nil]

/-- Witness for C7: fitting on `[1, 2, 3]` and estimating moments of a
two-candidate set. -/
theorem C7_mean_prediction_surrogate_witness :
    (((MeanPredictionSurrogate.mk none)._fit [] [1, 2, 3])._model
      = some (tensorMean [1, 2, 3]))
    ∧ (((MeanPredictionSurrogate.mk none)._fit [] [1, 2, 3])._estimate_moments
        [[5], [6]]
      = some (List.replicate 2 (tensorMean [1, 2, 3]), List.replicate 2 1))
    ∧ tensorMean [1, 2, 3] = 2 :=
  C7_mean_prediction_surrogate ⟨none⟩ [] [1, 2, 3] (by decide) [[5], [6]]

/-! ### get_integration_points (C5, C6, C10) -/

/-- C5: on a purely continuous search space, `get_integration_points`
raises the `ValueError` naming the offending class when
`sampling_n_points` is `None`, and returns exactly `k` rows when
`sampling_n_points = k > 0` (given the spec contract that
`samples_random n` returns `n` rows). -/
theorem C5_integration_points_purely_continuous
    (a : qNegIntegratedPosteriorVariance) (ss : Acq.SearchSpace)
    (sample_numerical_df : List (List ℚ) → Nat → SamplingMethod → List (List ℚ))
    (samples_random : Nat → List (List ℚ))
    (hd : ss.discrete = none) (hc : ss.continuous = some ())
    (hrand : ∀ n, (samples_random n).length = n) :
    (a.sampling_n_points = none →
      a.get_integration_points ss sample_numerical_df samples_random
        = .error (.missingSamplingNPoints "qNegIntegratedPosteriorVariance"))
    ∧ (∀ k, a.sampling_n_points = some k → 0 < k →
      ∃ rows, a.get_integration_points ss sample_numerical_df samples_random
          = .ok rows ∧ rows.length = k) := by
  obtain ⟨f, np, m⟩ := a
  obtain ⟨d, c⟩ := ss
  have hd' : d = none := hd
  have hc' : c = some () := hc
  subst hd' hc'
  constructor
  · intro hnp
    change np = none at hnp
    subst hnp
    rfl
  · intro k hnp hk
    change np = some k at hnp
    subst hnp
    exact ⟨samples_random k, rfl, hrand k⟩

/-- Witness for C5: a purely continuous space with
`sampling_n_points = None` errors; with `sampling_n_points = 3` the call
returns 3 rows. -/
theorem C5_integration_points_purely_continuous_witness :
    ((qNegIntegratedPosteriorVariance.mk 1 none .Random).get_integration_points
        ⟨none, some ()⟩ (fun _ n _ => List.replicate n [0])
        (fun n => List.replicate n [7])
      = .error (.missingSamplingNPoints "qNegIntegratedPosteriorVariance"))
    ∧ ∃ rows,
      (qNegIntegratedPosteriorVariance.mk 1 (some 3) .Random).get_integration_points
        ⟨none, some ()⟩ (fun _ n _ => List.replicate n [0])
        (fun n => List.replicate n [7])
      = .ok rows ∧ rows.length = 3 :=
  ⟨(C5_integration_points_purely_continuous ⟨1, none, .Random⟩ ⟨none, some ()⟩
      (fun _ n _ => List.replicate n [0]) (fun n => List.replicate n [7])
      rfl rfl (fun n => List.length_replicate n [7])).1 rfl,
   (C5_integration_points_purely_continuous ⟨1, some 3, .Random⟩ ⟨none, some ()⟩
      (fun _ n _ => List.replicate n [0]) (fun n => List.replicate n [7])
      rfl rfl (fun n => List.length_replicate n [7])).2 3 rfl (by decide)⟩

/-- C6: for a search space with a discrete part of `D` candidate rows, a
successful `get_integration_points` call returns `n_candidates` rows,
where `n_candidates` is the explicit `sampling_n_points` if given and
`ceil(sampling_fraction * D)` otherwise (given the spec contracts that
the samplers return as many rows as requested, and that a validated
instance has positive `sampling_n_points`). -/
theorem C6_integration_points_discrete_count
    (a : qNegIntegratedPosteriorVariance) (ss : Acq.SearchSpace)
    (sample_numerical_df : List (List ℚ) → Nat → SamplingMethod → List (List ℚ))
    (samples_random : Nat → List (List ℚ))
    (comp : List (List ℚ)) (hd : ss.discrete = some comp)
    (hdf : ∀ df n m, (sample_numerical_df df n m).length = n)
    (hrand : ∀ n, (samples_random n).length = n)
    (hvalid : ∀ k, a.sampling_n_points = some k → 0 < k)
    (rows : List (List ℚ))
    (hok : a.get_integration_points ss sample_numerical_df samples_random
      = .ok rows) :
    rows.length = a.sampling_n_points.getD
      (Nat.ceil (a.sampling_fraction * (comp.length : ℚ))) := by
  obtain ⟨f, np, m⟩ := a
  obtain ⟨d, c⟩ := ss
  have hd' : d = some comp := hd
  subst hd'
  unfold qNegIntegratedPosteriorVariance.get_integration_points at hok
  dsimp only at hok ⊢
  cases np with
  | some k =>
    have hk : 0 < k := hvalid k rfl
    have hkne : (k != 0) = true := by
      simpa using Nat.pos_iff_ne_zero.mp hk
    have hpy : ∀ x, pyOr (some k) x = some k := fun x => by
      simp [pyOr, pyTruthy, hkne]
    simp only [hpy] at hok
    cases c with
    | none =>
      dsimp only at hok
      simp only [Except.ok.injEq] at hok
      rw [← hok, hdf]
      rfl
    | some u =>
      dsimp only at hok
      rw [if_pos (by simp [hdf, hrand])] at hok
      simp only [Except.ok.injEq] at hok
      rw [← hok]
      simp [List.length_zipWith, hdf, hrand]
  | none =>
    have hpy : ∀ x, pyOr none x = x := fun x => by
      simp [pyOr, pyTruthy]
    simp only [hpy] at hok
    cases c with
    | none =>
      dsimp only at hok
      simp only [Except.ok.injEq] at hok
      rw [← hok, hdf]
      rfl
    | some u =>
      dsimp only at hok
      by_cases hC : Nat.ceil (f * (comp.length : ℚ)) = 0
      · rw [hC] at hok
        simp [pyOr, pyTruthy] at hok
      · rw [show pyOr (some (Nat.ceil (f * (comp.length : ℚ)))) none
            = some (Nat.ceil (f * (comp.length : ℚ))) from by
          simp [pyOr, pyTruthy, hC]] at hok
        dsimp only at hok
        rw [if_pos (by simp [hdf, hrand])] at hok
        simp only [Except.ok.injEq] at hok
        rw [← hok]
        simp [List.length_zipWith, hdf, hrand]

/-- Witness for C6: a discrete-only space of `D = 4` rows with
`sampling_fraction = 0.5` and `sampling_n_points = None` yields
`ceil(0.5 * 4) = 2` integration rows. -/
theorem C6_integration_points_discrete_count_witness :
    ([[(0:ℚ)], [0]] : List (List ℚ)).length
      = (none : Option Nat).getD
          (Nat.ceil (((1:ℚ)/2) * (([[1], [2], [3], [4]] : List (List ℚ)).length : ℚ))) :=
  C6_integration_points_discrete_count ⟨1/2, none, .Random⟩
    ⟨some [[1], [2], [3], [4]], none⟩
    (fun _ n _ => List.replicate n [0]) (fun n => List.replicate n [7])
    [[1], [2], [3], [4]] rfl
    (fun _ n _ => List.length_replicate n [0])
    (fun n => List.length_replicate n [7])
    (fun k hk => by simp at hk)
    [[0], [0]]
    (by
      have hc : Nat.ceil ((1/2 : ℚ)
          * (([[1], [2], [3], [4]] : List (List ℚ)).length : ℚ)) = 2 := by
        have h4 : (([[1], [2], [3], [4]] : List (List ℚ)).length : ℚ) = 4 := by
          norm_num
        rw [h4, Nat.ceil_eq_iff (by norm_num)]
        norm_num
      unfold qNegIntegratedPosteriorVariance.get_integration_points
      dsimp only
      rw [hc]
      rfl)

/-- C10: on a hybrid space whose discrete part has zero candidate rows,
`sampling_n_points = None` makes the discrete-derived count `0` falsy, so
the continuous branch falls back to `sampling_n_points` and raises the
purely-continuous `ValueError`; with `sampling_n_points = k > 0`, `k`
continuous rows are sampled and the call returns `k` rows (given the spec
contracts on the samplers). -/
theorem C10_integration_points_empty_discrete
    (a : qNegIntegratedPosteriorVariance) (ss : Acq.SearchSpace)
    (sample_numerical_df : List (List ℚ) → Nat → SamplingMethod → List (List ℚ))
    (samples_random : Nat → List (List ℚ))
    (hd : ss.discrete = some []) (hc : ss.continuous = some ())
    (hdf : ∀ df n m, (sample_numerical_df df n m).length = n)
    (hrand : ∀ n, (samples_random n).length = n) :
    (a.sampling_n_points = none →
      a.get_integration_points ss sample_numerical_df samples_random
        = .error (.missingSamplingNPoints "qNegIntegratedPosteriorVariance"))
    ∧ (∀ k, a.sampling_n_points = some k → 0 < k →
      a.get_integration_points ss sample_numerical_df samples_random
        = .ok (List.zipWith (fun r s => r ++ s)
            (sample_numerical_df [] k a.sampling_method) (samples_random k))
      ∧ ∀ rows,
        a.get_integration_points ss sample_numerical_df samples_random = .ok rows →
        rows.length = k) := by
  obtain ⟨f, np, m⟩ := a
  obtain ⟨d, c⟩ := ss
  have hd' : d = some [] := hd
  have hc' : c = some () := hc
  subst hd' hc'
  constructor
  · intro hnp
    change np = none at hnp
    subst hnp
    unfold qNegIntegratedPosteriorVariance.get_integration_points
    simp [pyOr, pyTruthy]
  · intro k hnp hk
    change np = some k at hnp
    subst hnp
    have hkne : (k != 0) = true := by
      simpa using Nat.pos_iff_ne_zero.mp hk
    have hpy : ∀ x, pyOr (some k) x = some k := fun x => by
      simp [pyOr, pyTruthy, hkne]
    have h1 : qNegIntegratedPosteriorVariance.get_integration_points
        ⟨f, some k, m⟩ ⟨some [], some ()⟩ sample_numerical_df samples_random
        = .ok (List.zipWith (fun r s => r ++ s)
            (sample_numerical_df [] k m) (samples_random k)) := by
      unfold qNegIntegratedPosteriorVariance.get_integration_points
      dsimp only
      simp only [hpy]
      rw [if_pos (by simp [hdf, hrand])]
      rfl
    refine ⟨h1, ?_⟩
    intro rows hrows
    rw [h1] at hrows
    simp only [Except.ok.injEq] at hrows
    rw [← hrows]
    simp [List.length_zipWith, hdf, hrand]

/-- Witness for C10: an empty discrete part plus a continuous part errors
without `sampling_n_points` and yields 2 rows with
`sampling_n_points = 2`. -/
theorem C10_integration_points_empty_discrete_witness :
    ((qNegIntegratedPosteriorVariance.mk 1 none .Random).get_integration_points
        ⟨some [], some ()⟩ (fun _ n _ => List.replicate n [0])
        (fun n => List.replicate n [7])
      = .error (.missingSamplingNPoints "qNegIntegratedPosteriorVariance"))
    ∧ ((qNegIntegratedPosteriorVariance.mk 1 (some 2) .Random).get_integration_points
        ⟨some [], some ()⟩ (fun _ n _ => List.replicate n [0])
        (fun n => List.replicate n [7])
      = .ok (List.zipWith (fun r s => r ++ s)
          (List.replicate 2 [0]) (List.replicate 2 [7]))
      ∧ ∀ rows,
        (qNegIntegratedPosteriorVariance.mk 1 (some 2) .Random).get_integration_points
          ⟨some [], some ()⟩ (fun _ n _ => List.replicate n [0])
          (fun n => List.replicate n [7]) = .ok rows →
        rows.length = 2) :=
  ⟨(C10_integration_points_empty_discrete ⟨1, none, .Random⟩ ⟨some [], some ()⟩
      (fun _ n _ => List.replicate n [0]) (fun n => List.replicate n [7])
      rfl rfl (fun _ n _ => List.length_replicate n [0])
      (fun n => List.length_replicate n [7])).1 rfl,
   (C10_integration_points_empty_discrete ⟨1, some 2, .Random⟩ ⟨some [], some ()⟩
      (fun _ n _ => List.replicate n [0]) (fun n => List.replicate n [7])
      rfl rfl (fun _ n _ => List.length_replicate n [0])
      (fun n => List.length_replicate n [7])).2 2 rfl (by decide)⟩

/-! ### select_candidates_and_recommend (C1, C2, C3) -/

theorem map_fst_label (f : Nat → Nat) (l : List Nat) :
    ((l.map (fun i => (i, f i))).map Prod.fst) = l := by
  induction l with
  | nil => rfl
  | cons a t ih => simp [ih]

theorem markRecommendedFrom_get? (idxs : List Nat)
    (meta : List Strategies.MetadataRow) (s j : Nat) :
    (Strategies.markRecommendedFrom idxs s meta).get? j
      = (meta.get? j).map (fun m =>
          if (s + j) ∈ idxs then { m with was_recommended := true } else m) := by
  induction meta generalizing s j with
  | nil => rfl
  | cons m rest ih =>
    cases j with
    | zero =>
      simp [Strategies.markRecommendedFrom]
    | succ j =>
      show (Strategies.markRecommendedFrom idxs (s + 1) rest).get? j = _
      rw [ih (s + 1) j]
      have hs : s + 1 + j = s + (j + 1) := by omega
      rw [hs]
      rfl

theorem markRecommended_get? (meta : List Strategies.MetadataRow)
    (idxs : List Nat) (i : Nat) :
    (Strategies.markRecommended meta idxs).get? i
      = (meta.get? i).map (fun m =>
          if i ∈ idxs then { m with was_recommended := true } else m) := by
  have h := markRecommendedFrom_get? idxs meta 0 i
  simpa using h

/-- C1 (amended): whenever `batch_quantity` is at most the number of
filtered candidates and the per-variant callback returns `batch_quantity`
distinct labels drawn from the candidate set, the discrete selection
helper succeeds with exactly `batch_quantity` distinct
experimental-representation rows, and the post-call metadata equals the
pre-call metadata with `was_recommended` set on exactly the returned
rows — so the flag ends up true on the returned rows together with any
rows already flagged before the call. -/
theorem C1_select_returns_batch (ss : Strategies.SearchSpace)
    (cb : Strategies.SearchSpace → List (Nat × List ℚ) → Nat → List Nat)
    (bq : Nat) (ar am : Bool)
    (hlen : bq ≤ (Strategies.filteredCandidates ss ar am).length)
    (hcb_len : (cb ss (Strategies.filteredCandidates ss ar am) bq).length = bq)
    (hcb_nodup : (cb ss (Strategies.filteredCandidates ss ar am) bq).Nodup)
    (hcb_mem : ∀ i ∈ cb ss (Strategies.filteredCandidates ss ar am) bq,
      i ∈ (Strategies.filteredCandidates ss ar am).map Prod.fst) :
    ∃ rows ss₂,
      Strategies.select_candidates_and_recommend ss cb bq ar am = (.ok rows, ss₂)
      ∧ rows.length = bq
      ∧ rows.Nodup
      ∧ rows.map Prod.fst = cb ss (Strategies.filteredCandidates ss ar am) bq
      ∧ ss₂.discrete.comp_rep = ss.discrete.comp_rep
      ∧ ss₂.discrete.exp_rep = ss.discrete.exp_rep
      ∧ ∀ i, ss₂.discrete.metadata.get? i
          = (ss.discrete.metadata.get? i).map (fun m =>
              if i ∈ rows.map Prod.fst then { m with was_recommended := true }
              else m) := by
  refine ⟨(cb ss (Strategies.filteredCandidates ss ar am) bq).map
      (fun i => (i, ss.discrete.exp_rep.getD i 0)),
    ⟨⟨ss.discrete.comp_rep, ss.discrete.exp_rep,
      Strategies.markRecommended ss.discrete.metadata
        (cb ss (Strategies.filteredCandidates ss ar am) bq)⟩, ss.continuous⟩,
    ?_, ?_, ?_, ?_, rfl, rfl, ?_⟩
  · simp only [Strategies.select_candidates_and_recommend]
    rw [if_neg (Nat.not_lt.mpr hlen)]
  · rw [List.length_map]
    exact hcb_len
  · exact hcb_nodup.map (fun a b h => congrArg Prod.fst h)
  · exact map_fst_label _ _
  · intro i
    have hmap : ((cb ss (Strategies.filteredCandidates ss ar am) bq).map
        (fun i => (i, ss.discrete.exp_rep.getD i 0))).map Prod.fst
        = cb ss (Strategies.filteredCandidates ss ar am) bq :=
      map_fst_label _ _
    rw [hmap]
    exact markRecommended_get? _ _ i

/-- Counterexample to C1 as stated: on a search space whose first row was
already flagged `was_recommended` by an earlier cycle, a call that
returns only the second row (all assumptions of the claim hold: two
candidates are available and the callback picks one of them) leaves the
first row flagged as well, so the flag is not true for exactly the
returned rows. -/
theorem C1_select_exactness_counterexample :
    ((Strategies.select_candidates_and_recommend
        ⟨⟨[[1], [2]], [10, 11],
          [⟨false, true, false⟩, ⟨false, false, false⟩]⟩, ⟨true⟩⟩
        (fun _ _ _ => [1]) 1 true true).1 = .ok [(1, 11)])
    ∧ ¬ (∀ i, i < 2 →
        (((Strategies.select_candidates_and_recommend
            ⟨⟨[[1], [2]], [10, 11],
              [⟨false, true, false⟩, ⟨false, false, false⟩]⟩, ⟨true⟩⟩
            (fun _ _ _ => [1]) 1 true true).2.discrete.metadata.getD i
              ⟨false, false, false⟩).was_recommended = true
          ↔ i ∈ ([(1, 11)].map Prod.fst))) := by
  constructor
  · decide
  · decide

/-- Witness for C1 on a fresh two-row search space: the callback picks
row 0 and the helper returns it, flagging exactly that row. -/
theorem C1_select_returns_batch_witness :
    ∃ rows ss₂,
      Strategies.select_candidates_and_recommend
        ⟨⟨[[1], [2]], [10, 11],
          [⟨false, false, false⟩, ⟨false, false, false⟩]⟩, ⟨true⟩⟩
        (fun _ _ _ => [0]) 1 false true = (.ok rows, ss₂)
      ∧ rows.length = 1
      ∧ rows.Nodup
      ∧ rows.map Prod.fst = [0]
      ∧ ss₂.discrete.comp_rep = [[1], [2]]
      ∧ ss₂.discrete.exp_rep = [10, 11]
      ∧ ∀ i, ss₂.discrete.metadata.get? i
          = (([⟨false, false, false⟩,
               ⟨false, false, false⟩] : List Strategies.MetadataRow).get? i).map
              (fun m =>
                if i ∈ rows.map Prod.fst then { m with was_recommended := true }
                else m) :=
  C1_select_returns_batch
    ⟨⟨[[1], [2]], [10, 11],
      [⟨false, false, false⟩, ⟨false, false, false⟩]⟩, ⟨true⟩⟩
    (fun _ _ _ => [0]) 1 false true
    (by decide) (by decide) (by decide) (by decide)

/-- C2: when the filtered candidate count is strictly below
`batch_quantity`, the discrete selection helper fails with
`NotEnoughPointsLeftError` and returns the search space (in particular
its discrete metadata table) completely unchanged: the metadata update
only happens after a successful candidate selection. -/
theorem C2_not_enough_points_left (ss : Strategies.SearchSpace)
    (cb : Strategies.SearchSpace → List (Nat × List ℚ) → Nat → List Nat)
    (bq : Nat) (ar am : Bool)
    (h : (Strategies.filteredCandidates ss ar am).length < bq) :
    Strategies.select_candidates_and_recommend ss cb bq ar am
      = (.error .notEnoughPointsLeft, ss) := by
  simp only [Strategies.select_candidates_and_recommend]
  rw [if_pos h]

/-- Witness for C2: a single-row space whose only row is marked
`dont_recommend` has no candidates left for a batch of one. -/
theorem C2_not_enough_points_left_witness :
    Strategies.select_candidates_and_recommend
      ⟨⟨[[1]], [10], [⟨false, false, true⟩]⟩, ⟨true⟩⟩
      (fun _ _ _ => []) 1 true true
      = (.error .notEnoughPointsLeft,
         ⟨⟨[[1]], [10], [⟨false, false, true⟩]⟩, ⟨true⟩⟩) :=
  C2_not_enough_points_left
    ⟨⟨[[1]], [10], [⟨false, false, true⟩]⟩, ⟨true⟩⟩
    (fun _ _ _ => []) 1 true true (by decide)

theorem bool_or_or (a b : Bool) : ((a || b) || b) = (a || b) := by
  cases a <;> cases b <;> rfl

theorem filteredCandidates_effective (ss : Strategies.SearchSpace) (ar am : Bool) :
    Strategies.filteredCandidates ss (ar || !ss.continuous.empty)
      (am || !ss.continuous.empty) = Strategies.filteredCandidates ss ar am := by
  unfold Strategies.filteredCandidates
  rw [bool_or_or, bool_or_or]

/-- C3: the candidate filter passed to `get_candidates` is the caller
flag OR-ed with the presence of a non-empty continuous part — the helper
behaves exactly as if called with those effective flags, and whenever the
continuous part is non-empty it behaves as if both flags were true,
regardless of the caller arguments. -/
theorem C3_continuous_part_overrides_flags (ss : Strategies.SearchSpace)
    (cb : Strategies.SearchSpace → List (Nat × List ℚ) → Nat → List Nat)
    (bq : Nat) (ar am : Bool) :
    (Strategies.select_candidates_and_recommend ss cb bq ar am
      = Strategies.select_candidates_and_recommend ss cb bq
          (ar || !ss.continuous.empty) (am || !ss.continuous.empty))
    ∧ (ss.continuous.empty = false →
      Strategies.select_candidates_and_recommend ss cb bq ar am
        = Strategies.select_candidates_and_recommend ss cb bq true true) := by
  constructor
  · simp only [Strategies.select_candidates_and_recommend,
      filteredCandidates_effective]
  · intro he
    have hfc : Strategies.filteredCandidates ss ar am
        = Strategies.filteredCandidates ss true true := by
      unfold Strategies.filteredCandidates
      rw [he]
      simp
    simp only [Strategies.select_candidates_and_recommend, hfc]

/-- Witness for C3 on a space with a non-empty continuous part: the
caller flags `(false, false)` give the same outcome as `(true, true)`. -/
theorem C3_continuous_part_overrides_flags_witness :
    Strategies.select_candidates_and_recommend
      ⟨⟨[[1], [2]], [10, 11],
        [⟨true, true, false⟩, ⟨false, false, false⟩]⟩, ⟨false⟩⟩
      (fun _ _ _ => [0]) 1 false false
      = Strategies.select_candidates_and_recommend
      ⟨⟨[[1], [2]], [10, 11],
        [⟨true, true, false⟩, ⟨false, false, false⟩]⟩, ⟨false⟩⟩
      (fun _ _ _ => [0]) 1 true true :=
  (C3_continuous_part_overrides_flags
    ⟨⟨[[1], [2]], [10, 11],
      [⟨true, true, false⟩, ⟨false, false, false⟩]⟩, ⟨false⟩⟩
    (fun _ _ _ => [0]) 1 false false).2 rfl

end Baybe
